import Mathlib

/-!
Shallow embedding of the HlaPrint HubSpot extension card.

The repository contains two revisions of the card component
(`src/unnamed/part_000` and `src/unnamed/part_001`; the latter is the one
registered with `hubspot.extend`) and a settings page.  The functions
embedded here are, per revision where they differ:

* `validateBeforeSend` — the client-side guard (identical in both parts);
* the payload construction inside `sendPrint` (identical in both parts),
  modelled as `buildPrintFile` / `buildRequest`;
* `hsFetch` — the wrapper around `hubspot.fetch`; `hsFetch001` builds the
  diagnostic detail string and sets the error toast itself, `hsFetch000`
  only throws a message assembled from status and body;
* `doLogin` / `sendPrint` — the stateful flows, modelled as pure state
  transformers `doLogin000`/`doLogin001`, `sendPrint000`/`sendPrint001`
  over `UiState`, parameterised by the network outcome (`FetchOutcome`).

JavaScript runtime values flowing through the code (parsed JSON bodies,
the `token` state variable) are modelled by `JsValue`; `Number(string)`
is modelled by `jsNumber` on its decimal-integer fragment (values that
are NaN or not integers are collapsed to `none`, which is exactly the
information used by the `Number.isInteger(x) && x >= 1` guards in the
source).  Strings are Lean `String`s; JS `.length` (UTF-16 units) is
modelled by codepoint length, which agrees on the ASCII data involved.
-/

/-- JsValue models a JavaScript runtime value as far as the card code
inspects one: strings, (integer) numbers, booleans, null, and objects as
association lists.  Non-integer numbers never reach a `JsValue` in the
modelled paths. -/
inductive JsValue where
  | jstr (s : String)
  | jnum (n : Int)
  | jbool (b : Bool)
  | jnull
  | jobj (fields : List (String × JsValue))

/-- jsTruthy models JavaScript truthiness (`if (v)` / `!v`) for the
values representable as `JsValue`. -/
def jsTruthy : JsValue → Bool
  | .jstr s => s ≠ ""
  | .jnum n => n ≠ 0
  | .jbool b => b
  | .jnull => false
  | .jobj _ => true

/-- jsTruthyOpt extends truthiness to a possibly-absent value: an absent
property (`undefined`) is falsy. -/
def jsTruthyOpt : Option JsValue → Bool
  | none => false
  | some v => jsTruthy v

/-- jsGetField models optional-chained property access `v?.key`: `none`
is JavaScript `undefined` (missing property, or access on a
non-object). -/
def jsGetField : JsValue → String → Option JsValue
  | .jobj fields, key => (fields.find? (fun p => p.fst == key)).map (fun p => p.snd)
  | _, _ => none

/-- jsToString models JavaScript string conversion as performed by a
template literal or by the `Error` constructor. -/
def jsToString : JsValue → String
  | .jstr s => s
  | .jnum n => toString n
  | .jbool b => if b then "true" else "false"
  | .jnull => "null"
  | .jobj _ => "[object Object]"

/-- jsWhitespaceChar recognises the whitespace characters stripped by
JavaScript `String.prototype.trim` (restricted to the ASCII range that
can occur in the form fields). -/
def jsWhitespaceChar (c : Char) : Bool :=
  c == ' ' || c == '\t' || c == '\n' || c == '\r' || c == '\x0b' || c == '\x0c'

/-- jsTrim models `s.trim()`. -/
def jsTrim (s : String) : String :=
  ⟨((s.data.dropWhile jsWhitespaceChar).reverse.dropWhile jsWhitespaceChar).reverse⟩

/-- digitsVal reads a non-empty list of decimal digits as a natural
number; `none` when empty or when a non-digit occurs. -/
def digitsVal (cs : List Char) : Option Nat :=
  if cs.isEmpty then none
  else if cs.all (fun c => c.isDigit) then
    some (cs.foldl (fun a c => 10 * a + (c.toNat - 48)) 0)
  else none

/-- jsNumber models the composite `Number(s)` conversion used by the
card, restricted to the decimal-integer fragment: the input is trimmed,
the empty string converts to `0`, and an optionally signed run of
decimal digits converts to that integer.  Every other input (NaN cases,
and numeric literals that are not plain decimal integers, which the
validator's `Number.isInteger` guard rejects as well) is collapsed to
`none`. -/
def jsNumber (s : String) : Option Int :=
  match (jsTrim s).data with
  | [] => some 0
  | '-' :: rest => (digitsVal rest).map (fun n => -(n : Int))
  | '+' :: rest => (digitsVal rest).map (fun n => (n : Int))
  | cs => (digitsVal cs).map (fun n => (n : Int))

/-- hasVal models the presence test `s.trim().length > 0` used for the
optional page-range fields. -/
def hasVal (s : String) : Bool := !(jsTrim s).isEmpty

/-- Draft collects the form-state fields read by `validateBeforeSend`
and `sendPrint` (both revisions declare the same fields with the same
initial values).  `copies` is a JS number kept as an integer, `pageSize`
and `orientation` are the string unions of the source. -/
structure Draft where
  deviceName : String
  fileUrl : String
  copies : Int
  color : Bool
  duplex : Bool
  pageSize : String
  orientation : String
  rangeStart : String
  rangeEnd : String

/-- copiesRule is the final guard of `validateBeforeSend`:
`if (copies < 1 || copies > 100) return "Copies must be between 1 and 100."`. -/
def copiesRule (d : Draft) : Option String :=
  if d.copies < 1 ∨ d.copies > 100 then some "Copies must be between 1 and 100." else none

/-- validateBeforeSend embeds the identically-named function of
`src/unnamed/part_000` lines 98–121 and `src/unnamed/part_001` lines
101–121 (the two revisions are verbatim identical).  `some msg` is the
early `return msg`, `none` the final `return null`. -/
def validateBeforeSend (token : JsValue) (d : Draft) : Option String :=
  if jsTruthy token = false then some "Please login first."
  else if d.deviceName = "" then some "Device name is required."
  else if d.deviceName.length > 23 then some "Device name must be ≤ 23 characters."
  else if d.fileUrl = "" then some "File URL is required."
  else if hasVal d.rangeStart != hasVal d.rangeEnd then
    some "If using page range, set both start and end."
  else if hasVal d.rangeStart && hasVal d.rangeEnd then
    match jsNumber d.rangeStart with
    | none => some "Page start must be an integer ≥ 1."
    | some s =>
      if s < 1 then some "Page start must be an integer ≥ 1."
      else
        match jsNumber d.rangeEnd with
        | none => some "Page end must be an integer ≥ 1."
        | some e =>
          if e < 1 then some "Page end must be an integer ≥ 1."
          else if e < s then some "Page end must be ≥ page start."
          else copiesRule d
  else copiesRule d

/-- PageRangeFields are the two optional wire fields added to a print
file when both range inputs are truthy; the asymmetric key names
`pages_start` / `page_end` are the source's.  The values model
`Number(rangeStart)` / `Number(rangeEnd)` via `jsNumber` (`none` for a
NaN / non-integer conversion). -/
structure PageRangeFields where
  pages_start : Option Int
  page_end : Option Int

/-- PrintFilePayload is the object literal `printFile` built inside
`sendPrint`; field names are the wire names of the source. -/
structure PrintFilePayload where
  filename : String
  color : Bool
  double_sided : Bool
  page_size : String
  copies : Int
  page_orientation : String
  range : Option PageRangeFields

/-- PrintJobBody is the request body `{ device_name, print_files }`. -/
structure PrintJobBody where
  device_name : String
  print_files : List PrintFilePayload

/-- PrintRequest is the outgoing POST to `/api/createPrintjob`: path,
`Authorization` header value, and JSON body. -/
structure PrintRequest where
  path : String
  bearer : String
  body : PrintJobBody

/-- buildPrintFile embeds the `printFile` construction of `sendPrint`
(part_000 lines 133–145 / part_001 lines 132–143): the field mapping,
and the conditional `if (rangeStart && rangeEnd)` — JS truthiness of the
untrimmed strings, i.e. both non-empty. -/
def buildPrintFile (d : Draft) : PrintFilePayload :=
  { filename := d.fileUrl
    color := d.color
    double_sided := d.duplex
    page_size := d.pageSize
    copies := d.copies
    page_orientation := d.orientation
    range :=
      if d.rangeStart ≠ "" ∧ d.rangeEnd ≠ "" then
        some ⟨jsNumber d.rangeStart, jsNumber d.rangeEnd⟩
      else none }

/-- buildBody embeds `const body = { device_name: deviceName, print_files: [printFile] }`. -/
def buildBody (d : Draft) : PrintJobBody :=
  { device_name := d.deviceName, print_files := [buildPrintFile d] }

/-- buildRequest assembles the full `/api/createPrintjob` request with
the `Bearer ${token}` header of `sendPrint`. -/
def buildRequest (token : JsValue) (d : Draft) : PrintRequest :=
  { path := "/api/createPrintjob"
    bearer := "Bearer " ++ jsToString token
    body := buildBody d }

/-- HttpResponse models what the code reads off a `hubspot.fetch`
response: the numeric status, the headers, the body text, and the
outcome of `JSON.parse` on that text (`none` when parsing throws; the
JSON grammar itself is the host library's and is not re-implemented
here, the response model carries its result). -/
structure HttpResponse where
  status : Nat
  headers : List (String × String)
  bodyText : String
  parsedBody : Option JsValue

/-- HttpResponse.ok models the fetch `Response.ok` flag: status in the
inclusive range 200–299. -/
def HttpResponse.ok (r : HttpResponse) : Bool :=
  decide (200 ≤ r.status ∧ r.status ≤ 299)

/-- lowerAscii lower-cases an ASCII letter, as far as header-name
comparison needs. -/
def lowerAscii (c : Char) : Char :=
  if 'A' ≤ c ∧ c ≤ 'Z' then Char.ofNat (c.toNat + 32) else c

/-- jsLower lower-cases a string character-wise. -/
def jsLower (s : String) : String := ⟨s.data.map lowerAscii⟩

/-- headerGet models the case-insensitive `Headers.get` lookup of the
fetch API (`null`, i.e. `none`, when the header is absent). -/
def headerGet (headers : List (String × String)) (key : String) : Option String :=
  (headers.find? (fun p => jsLower p.fst == jsLower key)).map (fun p => p.snd)

/-- xErrHeader embeds `(res as any).headers?.get?.("x-hubspot-external-error") || ""`
from `hsFetch` in part_001. -/
def xErrHeader (resp : HttpResponse) : String :=
  (headerGet resp.headers "x-hubspot-external-error").getD ""

/-- take400 models `s.slice(0, 400)`. -/
def take400 (s : String) : String := ⟨s.data.take 400⟩

/-- hsFetchOut is the value `hsFetch` works with after reading the body:
`JSON.parse(text)` when that succeeds, otherwise the raw text. -/
def hsFetchOut (resp : HttpResponse) : JsValue :=
  resp.parsedBody.getD (.jstr resp.bodyText)

/-- hsFetchDetail embeds the diagnostic detail string assembled by
`hsFetch` in part_001 lines 57–61:
`URL: ...\nStatus: ...\nProxy-Error: ...\nBody: ...` with the body
excerpt `(text || "<empty>").slice(0, 400)`. -/
def hsFetchDetail (url : String) (resp : HttpResponse) : String :=
  "URL: " ++ url ++ "\n" ++
  "Status: " ++ toString resp.status ++ "\n" ++
  "Proxy-Error: " ++ xErrHeader resp ++ "\n" ++
  "Body: " ++ take400 (if resp.bodyText = "" then "<empty>" else resp.bodyText)

/-- HsFetchResult is the observable outcome of one `hsFetch` call:
a returned value, or a thrown error with its message. -/
inductive HsFetchResult where
  | ok (out : JsValue)
  | err (detail : String)

/-- hsFetch001 embeds `hsFetch` of part_001 (lines 47–71): on a non-ok
status the detail string is built (and also placed in the error toast by
the caller-side models below) and thrown; on an ok status the parsed
body (or raw text fallback) is returned. -/
def hsFetch001 (url : String) (resp : HttpResponse) : HsFetchResult :=
  if resp.ok then .ok (hsFetchOut resp) else .err (hsFetchDetail url resp)

/-- jsonStringify models `JSON.stringify` on `JsValue` (string escaping
is not modelled; the bodies exercised in proofs contain none). -/
def jsonStringify : JsValue → String
  | .jstr s => "\"" ++ s ++ "\""
  | .jnum n => toString n
  | .jbool b => if b then "true" else "false"
  | .jnull => "null"
  | .jobj fields =>
    "\x7b" ++
      String.intercalate ","
        (fields.attach.map (fun p => "\"" ++ p.1.fst ++ "\":" ++ jsonStringify p.1.snd)) ++
      "\x7d"
decreasing_by
  obtain ⟨⟨a, b⟩, hmem⟩ := p
  have h := List.sizeOf_lt_of_mem hmem
  simp at h ⊢
  omega

/-- hsFetch000ErrMsg embeds the thrown error message of `hsFetch` in
part_000 lines 70–76:
`typeof json === "string" ? status json : json?.message || JSON.stringify(json)`. -/
def hsFetch000ErrMsg (resp : HttpResponse) : String :=
  match hsFetchOut resp with
  | .jstr s => toString resp.status ++ " " ++ s
  | v =>
    match jsGetField v "message" with
    | some m => if jsTruthy m then jsToString m else jsonStringify v
    | none => jsonStringify v

/-- hsFetch000 embeds `hsFetch` of part_000 (lines 53–78). -/
def hsFetch000 (resp : HttpResponse) : HsFetchResult :=
  if resp.ok then .ok (hsFetchOut resp) else .err (hsFetch000ErrMsg resp)

/-- orElseStr models the JS `x || dflt` fallback on strings (the empty
string is the only falsy string). -/
def orElseStr (s dflt : String) : String := if s = "" then dflt else s

/-- Stage is the `stage` state of the card: `"login" | "ready" | "sending"`. -/
inductive Stage where
  | login
  | ready
  | sending
  deriving DecidableEq

/-- ToastType is the toast variant `"success" | "error"`. -/
inductive ToastType where
  | success
  | error
  deriving DecidableEq

/-- Toast is the `{ type, msg }` toast state. -/
structure Toast where
  type : ToastType
  msg : String

/-- UiState is the card state the flows read and write: the stage, the
toast (`none` initially and after dismissal), and the `token` state
variable (a JS value; initially the empty string). -/
structure UiState where
  stage : Stage
  toast : Option Toast
  token : JsValue

/-- FetchOutcome is the environment's answer to one `hubspot.fetch`
call: either the promise rejected (a transport error carrying a
message), or a response arrived. -/
inductive FetchOutcome where
  | thrown (msg : String)
  | responded (resp : HttpResponse)

/-- BASE001 is the backend base constant of part_001. -/
def BASE001 : String := "https://hlaprint.com"

/-- doLogin001 embeds `doLogin` of part_001 (lines 85–99) as a state
transformer.  A transport rejection bypasses the toast-setting code in
`hsFetch` and is swallowed by the empty `catch` (commented
"handled in hs fetch already"), so the state is unchanged; a non-ok
response gets its toast from inside `hsFetch` before the swallowed
throw; a 2xx body without a truthy `token` throws
"Token missing in response", which the empty `catch` also swallows. -/
def doLogin001 (st : UiState) (net : FetchOutcome) : UiState :=
  match net with
  | .thrown _ => st
  | .responded resp =>
    match hsFetch001 (BASE001 ++ "/api/login") resp with
    | .err detail => { st with toast := some ⟨.error, detail⟩ }
    | .ok out =>
      match jsGetField out "token" with
      | some v =>
        if jsTruthy v then
          { st with token := v, toast := some ⟨.success, "Logged in to HlaPrint."⟩,
                    stage := .ready }
        else st
      | none => st

/-- doLogin000 embeds `doLogin` of part_000 (lines 80–95): every caught
error — transport rejection, the non-ok throw from `hsFetch`, or the
missing-token throw — sets an error toast with
`e?.message || "Login failed"`. -/
def doLogin000 (st : UiState) (net : FetchOutcome) : UiState :=
  match net with
  | .thrown msg => { st with toast := some ⟨.error, orElseStr msg "Login failed"⟩ }
  | .responded resp =>
    match hsFetch000 resp with
    | .err emsg => { st with toast := some ⟨.error, orElseStr emsg "Login failed"⟩ }
    | .ok out =>
      match jsGetField out "token" with
      | some v =>
        if jsTruthy v then
          { st with token := v, toast := some ⟨.success, "Logged in to HlaPrint."⟩,
                    stage := .ready }
        else { st with toast := some ⟨.error, "Token missing in response"⟩ }
      | none => { st with toast := some ⟨.error, "Token missing in response"⟩ }

/-- nullishToStr models the template fragment `${v ?? "-"}`: nullish
coalescing followed by string conversion. -/
def nullishToStr (v : Option JsValue) (dflt : String) : String :=
  match v with
  | none => dflt
  | some .jnull => dflt
  | some w => jsToString w

/-- createdMsg is the success toast text of `sendPrint`:
`Created. Txn ${out?.transaction_id ?? "-"}, code ${out?.code ?? "-"}`. -/
def createdMsg (out : JsValue) : String :=
  "Created. Txn " ++ nullishToStr (jsGetField out "transaction_id") "-" ++
  ", code " ++ nullishToStr (jsGetField out "code") "-"

/-- sendPrint001 embeds `sendPrint` of part_001 (lines 123–163).  The
result pairs the final state with the request that went out (`none`
when validation stopped the flow before any network call).  The
`finally` clause sets the stage back to `ready` on every path that
entered the `try`; the empty `catch` means a transport rejection leaves
no toast. -/
def sendPrint001 (st : UiState) (d : Draft) (net : FetchOutcome) :
    UiState × Option PrintRequest :=
  match validateBeforeSend st.token d with
  | some err => ({ st with toast := some ⟨.error, err⟩ }, none)
  | none =>
    let req := buildRequest st.token d
    match net with
    | .thrown _ => ({ st with stage := .ready }, some req)
    | .responded resp =>
      match hsFetch001 (BASE001 ++ "/api/createPrintjob") resp with
      | .err detail =>
        ({ st with toast := some ⟨.error, detail⟩, stage := .ready }, some req)
      | .ok out =>
        ({ st with toast := some ⟨.success, createdMsg out⟩, stage := .ready }, some req)

/-- sendPrint000 embeds `sendPrint` of part_000 (lines 123–172); here
the `catch` sets an error toast with `e?.message || "Failed to create job"`. -/
def sendPrint000 (st : UiState) (d : Draft) (net : FetchOutcome) :
    UiState × Option PrintRequest :=
  match validateBeforeSend st.token d with
  | some err => ({ st with toast := some ⟨.error, err⟩ }, none)
  | none =>
    let req := buildRequest st.token d
    match net with
    | .thrown msg =>
      ({ st with toast := some ⟨.error, orElseStr msg "Failed to create job"⟩,
                 stage := .ready }, some req)
    | .responded resp =>
      match hsFetch000 resp with
      | .err emsg =>
        ({ st with toast := some ⟨.error, orElseStr emsg "Failed to create job"⟩,
                   stage := .ready }, some req)
      | .ok out =>
        ({ st with toast := some ⟨.success, createdMsg out⟩, stage := .ready }, some req)

example : validateBeforeSend (.jstr "T1")
    ⟨"Desk1", "https://x/y.pdf", 2, true, false, "A3", "portrait", "1", "3"⟩ = none := by
  decide

example : validateBeforeSend (.jstr "T1")
    ⟨"Desk1", "https://x/y.pdf", 2, true, false, "A3", "portrait", "1", ""⟩ =
    some "If using page range, set both start and end." := by
  decide

example : jsNumber " 12 " = some 12 := by decide

example : jsNumber "x" = none := by decide

/-- specRuleAuth is rule 1 of the spec's validator contract:
authentication required. -/
def specRuleAuth (token : JsValue) : Option String :=
  if jsTruthy token = false then some "Please login first." else none

/-- specRuleDeviceRequired is rule 2: device name non-empty. -/
def specRuleDeviceRequired (d : Draft) : Option String :=
  if d.deviceName = "" then some "Device name is required." else none

/-- specRuleDeviceLen is rule 3: device name length at most 23. -/
def specRuleDeviceLen (d : Draft) : Option String :=
  if d.deviceName.length > 23 then some "Device name must be ≤ 23 characters." else none

/-- specRuleFileUrl is rule 4: file URL non-empty. -/
def specRuleFileUrl (d : Draft) : Option String :=
  if d.fileUrl = "" then some "File URL is required." else none

/-- specRuleRangeComplete is rule 5: the two range fields are set
together or absent together. -/
def specRuleRangeComplete (d : Draft) : Option String :=
  if hasVal d.rangeStart != hasVal d.rangeEnd then
    some "If using page range, set both start and end."
  else none

/-- specRuleRangeNumeric is rule 6: when both range fields are present,
each must read as an integer that is at least 1, and the end must not be
below the start. -/
def specRuleRangeNumeric (d : Draft) : Option String :=
  if hasVal d.rangeStart && hasVal d.rangeEnd then
    match jsNumber d.rangeStart with
    | none => some "Page start must be an integer ≥ 1."
    | some s =>
      if s < 1 then some "Page start must be an integer ≥ 1."
      else
        match jsNumber d.rangeEnd with
        | none => some "Page end must be an integer ≥ 1."
        | some e =>
          if e < 1 then some "Page end must be an integer ≥ 1."
          else if e < s then some "Page end must be ≥ page start."
          else none
  else none

/-- specRuleCopies is rule 7: copies within the inclusive range 1–100. -/
def specRuleCopies (d : Draft) : Option String :=
  if d.copies < 1 ∨ d.copies > 100 then some "Copies must be between 1 and 100." else none

/-- specRules is the spec's ordered rule list for the validator. -/
def specRules (token : JsValue) (d : Draft) : List (Option String) :=
  [ specRuleAuth token, specRuleDeviceRequired d, specRuleDeviceLen d,
    specRuleFileUrl d, specRuleRangeComplete d, specRuleRangeNumeric d,
    specRuleCopies d ]

/-- validateSpec renders the spec's sentence "first failing rule wins —
short-circuit" directly: the first rule that yields an error decides the
result. -/
def validateSpec (token : JsValue) (d : Draft) : Option String :=
  (specRules token d).findSome? id

/-- findSome_id_none_iff characterises an all-pass rule list. -/
theorem findSome_id_none_iff (l : List (Option String)) :
    l.findSome? id = none ↔ ∀ r ∈ l, r = none := by
  induction l with
  | nil => simp [List.findSome?]
  | cons a t ih => cases a <;> simp [List.findSome?, ih]

/-- validateBeforeSend_eq_spec: the source validator agrees everywhere
with the spec-worded first-failing-rule validator. -/
theorem validateBeforeSend_eq_spec (token : JsValue) (d : Draft) :
    validateBeforeSend token d = validateSpec token d := by
  unfold validateBeforeSend validateSpec specRules specRuleAuth specRuleDeviceRequired
    specRuleDeviceLen specRuleFileUrl specRuleRangeComplete specRuleRangeNumeric
    specRuleCopies copiesRule
  cases hT : jsTruthy token <;>
    by_cases hD : d.deviceName = "" <;>
    by_cases hL : d.deviceName.length > 23 <;>
    by_cases hF : d.fileUrl = "" <;>
    cases hS : hasVal d.rangeStart <;>
    cases hE : hasVal d.rangeEnd <;>
    try simp_all [List.findSome?]
  all_goals try (cases hNs : jsNumber d.rangeStart <;> try simp_all [List.findSome?])
  all_goals try (split <;> try simp_all [List.findSome?])
  all_goals try (cases hNe : jsNumber d.rangeEnd <;> try simp_all [List.findSome?])
  all_goals try (split_ifs <;> rfl)

/-- tokEx is a concrete logged-in token value, the `"T1"` of the spec's
end-to-end scenario. -/
def tokEx : JsValue := .jstr "T1"

/-- dEx is the draft of the spec's end-to-end scenario. -/
def dEx : Draft :=
  { deviceName := "Desk1", fileUrl := "https://x/y.pdf", copies := 2, color := true,
    duplex := false, pageSize := "A3", orientation := "portrait",
    rangeStart := "1", rangeEnd := "3" }

/-- C4: `validateBeforeSend` checks its rules in the fixed order —
authentication, device name non-empty, device name length ≤ 23, file URL
non-empty, range completeness, range numeric/order, copies bounds — and
returns the error of the first failing rule (it coincides everywhere
with the first-failing-rule reading `validateSpec`), returning `none`
exactly when every rule passes; it is a deterministic pure function of
its inputs. -/
theorem validate_first_failing_rule_wins (token : JsValue) (d : Draft) :
    validateBeforeSend token d = validateSpec token d ∧
    (validateBeforeSend token d = none ↔ ∀ r ∈ specRules token d, r = none) ∧
    (∀ t2 d2, t2 = token → d2 = d →
      validateBeforeSend t2 d2 = validateBeforeSend token d) := by
  refine ⟨validateBeforeSend_eq_spec token d, ?_, ?_⟩
  · rw [validateBeforeSend_eq_spec token d, validateSpec]
    exact findSome_id_none_iff _
  · intro t2 d2 h1 h2
    rw [h1, h2]

/-- Witness for C4 at the scenario inputs. -/
theorem validate_first_failing_rule_wins_witness :
    validateBeforeSend tokEx dEx = validateSpec tokEx dEx ∧
    validateBeforeSend tokEx dEx = none :=
  ⟨(validate_first_failing_rule_wins tokEx dEx).1, by decide⟩

/-- C1: for every draft that passes validation, building the submission
payload is deterministic (equal draft and token give an equal request),
the built file maps `fileUrl` to `filename`, `color` to `color`,
`duplex` to `double_sided`, `pageSize` to `page_size`, `copies` to
`copies` and `orientation` to `page_orientation`, with the asymmetric
range names `pages_start` and `page_end`; the file is wrapped as a
one-element `print_files` array beside the top-level `device_name`, and
the range fields appear in the payload iff both `rangeStart` and
`rangeEnd` are set (non-empty, `''` meaning unset in the source). -/
theorem build_payload_shape (token : JsValue) (d : Draft)
    (h : validateBeforeSend token d = none) :
    (∀ t2 d2, t2 = token → d2 = d → buildRequest t2 d2 = buildRequest token d) ∧
    (buildRequest token d).body.device_name = d.deviceName ∧
    (buildRequest token d).body.print_files = [buildPrintFile d] ∧
    (buildPrintFile d).filename = d.fileUrl ∧
    (buildPrintFile d).color = d.color ∧
    (buildPrintFile d).double_sided = d.duplex ∧
    (buildPrintFile d).page_size = d.pageSize ∧
    (buildPrintFile d).copies = d.copies ∧
    (buildPrintFile d).page_orientation = d.orientation ∧
    ((buildPrintFile d).range.isSome = true ↔ (d.rangeStart ≠ "" ∧ d.rangeEnd ≠ "")) ∧
    (d.rangeStart ≠ "" → d.rangeEnd ≠ "" →
      (buildPrintFile d).range = some ⟨jsNumber d.rangeStart, jsNumber d.rangeEnd⟩) := by
  refine ⟨fun t2 d2 h1 h2 => by rw [h1, h2], rfl, rfl, rfl, rfl, rfl, rfl, rfl, rfl, ?_, ?_⟩
  · unfold buildPrintFile
    split <;> simp_all
  · intro h1 h2
    simp [buildPrintFile, h1, h2]

/-- Witness for C1 at the scenario inputs, with the scenario's expected
payload written out. -/
theorem build_payload_shape_witness :
    validateBeforeSend tokEx dEx = none ∧
    (buildRequest tokEx dEx).body.print_files = [buildPrintFile dEx] ∧
    (buildPrintFile dEx).range = some ⟨jsNumber dEx.rangeStart, jsNumber dEx.rangeEnd⟩ ∧
    buildBody dEx =
      ⟨"Desk1", [⟨"https://x/y.pdf", true, false, "A3", 2, "portrait",
        some ⟨some 1, some 3⟩⟩]⟩ :=
  ⟨by decide,
   (build_payload_shape tokEx dEx (by decide)).2.2.1,
   (build_payload_shape tokEx dEx (by decide)).2.2.2.2.2.2.2.2.2.2 (by decide) (by decide),
   by rfl⟩

/-- strAppend_assoc: string concatenation is associative (used to
exhibit the components carried inside a diagnostic detail string). -/
theorem strAppend_assoc (a b c : String) : a ++ b ++ c = a ++ (b ++ c) :=
  String.append_assoc a b c

/-- C2: on every non-2xx response, `hsFetch` of part_001 fails with the
diagnostic detail string, and that string carries the numeric status,
the `x-hubspot-external-error` service-proxy header value, and the
first 400 characters of the raw body (with `<empty>` standing in for an
empty body), each preserved verbatim as a substring. -/
theorem hsFetch_error_detail (url : String) (resp : HttpResponse)
    (h : resp.ok = false) :
    hsFetch001 url resp = HsFetchResult.err (hsFetchDetail url resp) ∧
    (∃ a b, hsFetchDetail url resp = a ++ (toString resp.status ++ b)) ∧
    (∃ a b, hsFetchDetail url resp = a ++ (xErrHeader resp ++ b)) ∧
    (∃ a, hsFetchDetail url resp =
      a ++ take400 (if resp.bodyText = "" then "<empty>" else resp.bodyText)) := by
  refine ⟨by unfold hsFetch001; rw [h]; rfl, ?_, ?_, ?_⟩
  · exact ⟨"URL: " ++ url ++ "\n" ++ "Status: ",
      "\n" ++ "Proxy-Error: " ++ xErrHeader resp ++ "\n" ++ "Body: " ++
        take400 (if resp.bodyText = "" then "<empty>" else resp.bodyText),
      by simp only [hsFetchDetail, strAppend_assoc]⟩
  · exact ⟨"URL: " ++ url ++ "\n" ++ "Status: " ++ toString resp.status ++ "\n" ++
        "Proxy-Error: ",
      "\n" ++ "Body: " ++ take400 (if resp.bodyText = "" then "<empty>" else resp.bodyText),
      by simp only [hsFetchDetail, strAppend_assoc]⟩
  · exact ⟨"URL: " ++ url ++ "\n" ++ "Status: " ++ toString resp.status ++ "\n" ++
        "Proxy-Error: " ++ xErrHeader resp ++ "\n" ++ "Body: ",
      by simp only [hsFetchDetail, strAppend_assoc]⟩

/-- resp500 is the spec's error scenario: HTTP 500, body
`"Internal error"`, diagnostic header `"upstream timeout"`. -/
def resp500 : HttpResponse :=
  { status := 500, headers := [("x-hubspot-external-error", "upstream timeout")],
    bodyText := "Internal error", parsedBody := none }

/-- Witness for C2 at the spec's 500 scenario, with the carried detail
string written out. -/
theorem hsFetch_error_detail_witness :
    resp500.ok = false ∧
    hsFetch001 (BASE001 ++ "/api/createPrintjob") resp500 =
      HsFetchResult.err (hsFetchDetail (BASE001 ++ "/api/createPrintjob") resp500) ∧
    hsFetchDetail (BASE001 ++ "/api/createPrintjob") resp500 =
      "URL: https://hlaprint.com/api/createPrintjob\nStatus: 500\nProxy-Error: upstream timeout\nBody: Internal error" :=
  ⟨by decide,
   (hsFetch_error_detail (BASE001 ++ "/api/createPrintjob") resp500 (by decide)).1,
   by rfl⟩

/-- initialUiState is the card's initial state: login stage, no toast,
empty token. -/
def initialUiState : UiState := { stage := .login, toast := none, token := .jstr "" }

/-- emptyTokenResp is a 2xx login response whose JSON body is the empty
object — no `token` field. -/
def emptyTokenResp : HttpResponse :=
  { status := 200, headers := [], bodyText := "\x7b\x7d", parsedBody := some (.jobj []) }

/-- C3 is refuted on part_001: a 2xx login response whose body lacks a
`token` field makes `doLogin` throw "Token missing in response" straight
into its own empty `catch` (whose comment, "handled in hs fetch
already", is wrong for this path — `hsFetch` only toasts non-2xx
statuses): the state comes back unchanged, no toast is set, the failure
is silent.  A transport rejection is equally silent.  The part_000
revision of the same function does set the error toast, witnessing the
intended behaviour the claim describes. -/
theorem doLogin001_silent_failure :
    doLogin001 initialUiState (FetchOutcome.responded emptyTokenResp) = initialUiState ∧
    (doLogin001 initialUiState (FetchOutcome.responded emptyTokenResp)).toast = none ∧
    doLogin001 initialUiState (FetchOutcome.thrown "NetworkError") = initialUiState ∧
    doLogin000 initialUiState (FetchOutcome.responded emptyTokenResp) =
      { initialUiState with toast := some ⟨ToastType.error, "Token missing in response"⟩ } :=
  ⟨rfl, rfl, rfl, rfl⟩

/-- C5: login fails with an authentication error both on a non-2xx
status and on a 2xx body without a truthy `token` field, without
crashing — part_000 toasts the error, part_001 surfaces the non-2xx
detail via `hsFetch` and otherwise stays put — and on success both
revisions transition the session from the login stage to ready holding
exactly the returned token value. -/
theorem doLogin_auth_contract (st : UiState) (resp : HttpResponse) :
    (resp.ok = false →
      doLogin000 st (.responded resp) =
        { st with toast := some ⟨.error, orElseStr (hsFetch000ErrMsg resp) "Login failed"⟩ } ∧
      doLogin001 st (.responded resp) =
        { st with toast := some ⟨.error, hsFetchDetail (BASE001 ++ "/api/login") resp⟩ }) ∧
    (resp.ok = true → jsTruthyOpt (jsGetField (hsFetchOut resp) "token") = false →
      doLogin000 st (.responded resp) =
        { st with toast := some ⟨.error, "Token missing in response"⟩ } ∧
      doLogin001 st (.responded resp) = st) ∧
    (∀ v, resp.ok = true → jsGetField (hsFetchOut resp) "token" = some v →
      jsTruthy v = true →
      doLogin000 st (.responded resp) =
        { st with token := v, toast := some ⟨.success, "Logged in to HlaPrint."⟩,
                  stage := .ready } ∧
      doLogin001 st (.responded resp) =
        { st with token := v, toast := some ⟨.success, "Logged in to HlaPrint."⟩,
                  stage := .ready }) := by
  refine ⟨?_, ?_, ?_⟩
  · intro h
    constructor
    · simp [doLogin000, hsFetch000, h]
    · simp [doLogin001, hsFetch001, h]
  · intro h hT
    cases hG : jsGetField (hsFetchOut resp) "token" with
    | none =>
      constructor
      · simp [doLogin000, hsFetch000, h, hG]
      · simp [doLogin001, hsFetch001, h, hG]
    | some v =>
      rw [hG] at hT
      simp only [jsTruthyOpt] at hT
      constructor
      · simp [doLogin000, hsFetch000, h, hG, hT]
      · simp [doLogin001, hsFetch001, h, hG, hT]
  · intro v h hG hTr
    constructor
    · simp [doLogin000, hsFetch000, h, hG, hTr]
    · simp [doLogin001, hsFetch001, h, hG, hTr]

/-- respTok is a successful login response: 2xx with the scenario's
body `{message, token, status}` carrying token `"T1"`. -/
def respTok : HttpResponse :=
  { status := 200, headers := [],
    bodyText := "\x7b\"message\":\"ok\",\"token\":\"T1\",\"status\":\"ok\"\x7d",
    parsedBody := some (.jobj [("message", .jstr "ok"), ("token", .jstr "T1"),
      ("status", .jstr "ok")]) }

/-- Witness for C5: the successful-login branch at the scenario
response, from the initial logged-out state. -/
theorem doLogin_auth_contract_witness :
    respTok.ok = true ∧
    jsGetField (hsFetchOut respTok) "token" = some (JsValue.jstr "T1") ∧
    jsTruthy (JsValue.jstr "T1") = true ∧
    doLogin000 initialUiState (.responded respTok) =
      { initialUiState with
          token := JsValue.jstr "T1",
          toast := some ⟨.success, "Logged in to HlaPrint."⟩,
          stage := .ready } :=
  ⟨rfl, rfl, rfl,
   ((doLogin_auth_contract initialUiState respTok).2.2 (JsValue.jstr "T1")
      rfl rfl rfl).1⟩

/-- loginAttemptFails states that a login attempt failed for one of the
three possible reasons: the fetch promise rejected, the status was
non-2xx, or a 2xx body had no truthy `token`. -/
def loginAttemptFails (net : FetchOutcome) : Prop :=
  match net with
  | .thrown _ => True
  | .responded resp =>
    resp.ok = false ∨ jsTruthyOpt (jsGetField (hsFetchOut resp) "token") = false

/-- C10: whenever the login attempt fails — for any of the three
reasons — both revisions of `doLogin` leave the stored token and the
stage unchanged; in particular a card on the login stage stays on it.
The transition to ready happens only on a successful login. -/
theorem doLogin_failure_preserves_session (st : UiState) (net : FetchOutcome)
    (h : loginAttemptFails net) :
    (doLogin000 st net).token = st.token ∧ (doLogin000 st net).stage = st.stage ∧
    (doLogin001 st net).token = st.token ∧ (doLogin001 st net).stage = st.stage ∧
    (st.stage = Stage.login → (doLogin000 st net).stage = Stage.login ∧
      (doLogin001 st net).stage = Stage.login) := by
  have main : (doLogin000 st net).token = st.token ∧
      (doLogin000 st net).stage = st.stage ∧
      (doLogin001 st net).token = st.token ∧
      (doLogin001 st net).stage = st.stage := by
    cases net with
    | thrown m => exact ⟨rfl, rfl, rfl, rfl⟩
    | responded resp =>
      unfold loginAttemptFails at h
      cases hok : resp.ok with
      | false =>
        refine ⟨?_, ?_, ?_, ?_⟩ <;>
          simp [doLogin000, doLogin001, hsFetch000, hsFetch001, hok]
      | true =>
        rcases h with h | h
        · rw [hok] at h
          cases h
        · cases hG : jsGetField (hsFetchOut resp) "token" with
          | none =>
            refine ⟨?_, ?_, ?_, ?_⟩ <;>
              simp [doLogin000, doLogin001, hsFetch000, hsFetch001, hok, hG]
          | some v =>
            rw [hG] at h
            simp only [jsTruthyOpt] at h
            refine ⟨?_, ?_, ?_, ?_⟩ <;>
              simp [doLogin000, doLogin001, hsFetch000, hsFetch001, hok, hG, h]
  refine ⟨main.1, main.2.1, main.2.2.1, main.2.2.2, ?_⟩
  intro hs
  rw [main.2.1, main.2.2.2]
  exact ⟨hs, hs⟩

/-- Witness for C10: a failed (500) login attempt from the initial
state changes neither token nor stage. -/
theorem doLogin_failure_preserves_session_witness :
    loginAttemptFails (FetchOutcome.responded resp500) ∧
    (doLogin001 initialUiState (FetchOutcome.responded resp500)).token =
      initialUiState.token ∧
    (doLogin001 initialUiState (FetchOutcome.responded resp500)).stage =
      initialUiState.stage :=
  ⟨Or.inl rfl,
   (doLogin_failure_preserves_session initialUiState
      (FetchOutcome.responded resp500) (Or.inl rfl)).2.2.1,
   (doLogin_failure_preserves_session initialUiState
      (FetchOutcome.responded resp500) (Or.inl rfl)).2.2.2.1⟩

/-- preRangeOk states that the validator rules checked before the range
rules all pass: authenticated, device name non-empty and within length,
file URL non-empty. -/
def preRangeOk (token : JsValue) (d : Draft) : Prop :=
  jsTruthy token = true ∧ d.deviceName ≠ "" ∧ d.deviceName.length ≤ 23 ∧ d.fileUrl ≠ ""

/-- some_ne_copiesRule: an error message other than the copies message
is never the copies rule's outcome. -/
theorem some_ne_copiesRule (d : Draft) (m : String)
    (hm : m ≠ "Copies must be between 1 and 100.") : some m ≠ copiesRule d := by
  unfold copiesRule
  split
  · simp [hm]
  · simp

/-- C6: with the earlier rules passing, the validator rejects with the
range-incomplete error whenever exactly one of the two range fields is
set; when both are unset the range rules do not reject (the outcome is
the copies rule's); when both are set, the range rules pass exactly
when both parse as integers ≥ 1 with the end not below the start. -/
theorem validate_range_rules (token : JsValue) (d : Draft)
    (h : preRangeOk token d) :
    ((hasVal d.rangeStart != hasVal d.rangeEnd) = true →
      validateBeforeSend token d = some "If using page range, set both start and end.") ∧
    (hasVal d.rangeStart = false → hasVal d.rangeEnd = false →
      validateBeforeSend token d = copiesRule d) ∧
    (hasVal d.rangeStart = true → hasVal d.rangeEnd = true →
      ((∃ s e, jsNumber d.rangeStart = some s ∧ jsNumber d.rangeEnd = some e ∧
          1 ≤ s ∧ 1 ≤ e ∧ s ≤ e) ↔ validateBeforeSend token d = copiesRule d)) := by
  obtain ⟨hT, hD, hL, hF⟩ := h
  have hL2 : ¬ d.deviceName.length > 23 := by omega
  refine ⟨?_, ?_, ?_⟩
  · intro hne
    simp [validateBeforeSend, hT, hD, hL2, hF, hne]
  · intro hS hE
    simp [validateBeforeSend, hT, hD, hL2, hF, hS, hE]
  · intro hS hE
    constructor
    · rintro ⟨s, e, hNs, hNe, h1s, h1e, hse⟩
      have hs1 : ¬ s < 1 := by omega
      have he1 : ¬ e < 1 := by omega
      have hes : ¬ e < s := by omega
      simp [validateBeforeSend, hT, hD, hL2, hF, hS, hE, hNs, hNe, hs1, he1, hes]
    · intro hEq
      cases hNs : jsNumber d.rangeStart with
      | none =>
        have hV : validateBeforeSend token d =
            some "Page start must be an integer ≥ 1." := by
          simp [validateBeforeSend, hT, hD, hL2, hF, hS, hE, hNs]
        rw [hV] at hEq
        exact absurd hEq (some_ne_copiesRule d _ (by decide))
      | some s =>
        by_cases hs1 : s < 1
        · have hV : validateBeforeSend token d =
              some "Page start must be an integer ≥ 1." := by
            simp [validateBeforeSend, hT, hD, hL2, hF, hS, hE, hNs, hs1]
          rw [hV] at hEq
          exact absurd hEq (some_ne_copiesRule d _ (by decide))
        · cases hNe : jsNumber d.rangeEnd with
          | none =>
            have hV : validateBeforeSend token d =
                some "Page end must be an integer ≥ 1." := by
              simp [validateBeforeSend, hT, hD, hL2, hF, hS, hE, hNs, hs1, hNe]
            rw [hV] at hEq
            exact absurd hEq (some_ne_copiesRule d _ (by decide))
          | some e =>
            by_cases he1 : e < 1
            · have hV : validateBeforeSend token d =
                  some "Page end must be an integer ≥ 1." := by
                simp [validateBeforeSend, hT, hD, hL2, hF, hS, hE, hNs, hs1, hNe, he1]
              rw [hV] at hEq
              exact absurd hEq (some_ne_copiesRule d _ (by decide))
            · by_cases hes : e < s
              · have hV : validateBeforeSend token d =
                    some "Page end must be ≥ page start." := by
                  simp [validateBeforeSend, hT, hD, hL2, hF, hS, hE, hNs, hs1, hNe,
                    he1, hes]
                rw [hV] at hEq
                exact absurd hEq (some_ne_copiesRule d _ (by decide))
              · exact ⟨s, e, rfl, rfl, by omega, by omega, by omega⟩

/-- Witness for C6: the scenario draft has both range fields set with
values 1 and 3 and passes the range rules. -/
theorem validate_range_rules_witness :
    preRangeOk tokEx dEx ∧ hasVal dEx.rangeStart = true ∧ hasVal dEx.rangeEnd = true ∧
    validateBeforeSend tokEx dEx = copiesRule dEx :=
  ⟨⟨by decide, by decide, by decide, by decide⟩, by decide, by decide,
   ((validate_range_rules tokEx dEx ⟨by decide, by decide, by decide, by decide⟩).2.2
      (by decide) (by decide)).mp
     ⟨1, 3, by decide, by decide, by decide, by decide, by decide⟩⟩

/-- rangeRulesPass states that the two range rules raise no error. -/
def rangeRulesPass (d : Draft) : Prop :=
  specRuleRangeComplete d = none ∧ specRuleRangeNumeric d = none

/-- C7: a copies value outside the inclusive range 1–100 never lets
validation pass, and with every earlier rule passing it is rejected
exactly with the copies-out-of-bounds error; every value inside the
range passes (validation then succeeds, the copies rule alone never
rejecting it). -/
theorem validate_copies_bounds (token : JsValue) (d : Draft) :
    ((d.copies < 1 ∨ d.copies > 100) → validateBeforeSend token d ≠ none) ∧
    (preRangeOk token d → rangeRulesPass d →
      ((d.copies < 1 ∨ d.copies > 100) →
        validateBeforeSend token d = some "Copies must be between 1 and 100.") ∧
      (1 ≤ d.copies → d.copies ≤ 100 → validateBeforeSend token d = none)) := by
  constructor
  · intro hc hnone
    rw [validateBeforeSend_eq_spec, validateSpec, findSome_id_none_iff] at hnone
    have h7 := hnone (specRuleCopies d) (by simp [specRules])
    unfold specRuleCopies at h7
    rw [if_pos hc] at h7
    cases h7
  · rintro ⟨hT, hD, hL, hF⟩ ⟨h5, h6⟩
    have hL2 : ¬ d.deviceName.length > 23 := by omega
    have hV : validateBeforeSend token d = specRuleCopies d := by
      rw [validateBeforeSend_eq_spec]
      unfold validateSpec specRules
      cases h7 : specRuleCopies d <;>
        simp [List.findSome?, specRuleAuth, specRuleDeviceRequired, specRuleDeviceLen,
          specRuleFileUrl, hT, hD, hL2, hF, h5, h6, h7]
    constructor
    · intro hc
      rw [hV]
      unfold specRuleCopies
      rw [if_pos hc]
    · intro h1 h2
      rw [hV]
      unfold specRuleCopies
      rw [if_neg (by omega)]

/-- dCopies0 is the scenario draft with copies set to 0, an
out-of-bounds value. -/
def dCopies0 : Draft := { dEx with copies := 0 }

/-- Witness for C7: copies 0 is rejected with the copies error. -/
theorem validate_copies_bounds_witness :
    (dCopies0.copies < 1 ∨ dCopies0.copies > 100) ∧
    preRangeOk tokEx dCopies0 ∧ rangeRulesPass dCopies0 ∧
    validateBeforeSend tokEx dCopies0 = some "Copies must be between 1 and 100." :=
  ⟨by decide, ⟨by decide, by decide, by decide, by decide⟩, ⟨by decide, by decide⟩,
   ((validate_copies_bounds tokEx dCopies0).2
      ⟨by decide, by decide, by decide, by decide⟩ ⟨by decide, by decide⟩).1
     (by decide)⟩

/-- C8: a device name longer than 23 characters never lets validation
pass; with the authentication rule passing it is rejected with the
device-name-length error regardless of the remaining fields; and at
length ≤ 23 (boundary 23 included) the length error never fires. -/
theorem validate_deviceName_length (token : JsValue) (d : Draft) :
    (d.deviceName.length > 23 → validateBeforeSend token d ≠ none) ∧
    (jsTruthy token = true → d.deviceName.length > 23 →
      validateBeforeSend token d = some "Device name must be ≤ 23 characters.") ∧
    (d.deviceName.length ≤ 23 →
      validateBeforeSend token d ≠ some "Device name must be ≤ 23 characters.") := by
  refine ⟨?_, ?_, ?_⟩
  · intro hlen hnone
    rw [validateBeforeSend_eq_spec, validateSpec, findSome_id_none_iff] at hnone
    have h3 := hnone (specRuleDeviceLen d) (by simp [specRules])
    unfold specRuleDeviceLen at h3
    rw [if_pos hlen] at h3
    cases h3
  · intro hT hlen
    have hD : d.deviceName ≠ "" := by
      intro h0
      rw [h0] at hlen
      simp at hlen
    simp [validateBeforeSend, hT, hD, hlen]
  · intro hle hEq
    unfold validateBeforeSend copiesRule at hEq
    repeat' split at hEq
    all_goals first
      | omega
      | (cases hEq)
      | (injection hEq with hx
         exact absurd hx (by decide))

/-- dLong is the scenario draft with a 24-character device name. -/
def dLong : Draft := { dEx with deviceName := "ABCDEFGHIJKLMNOPQRSTUVWX" }

/-- Witness for C8: a 24-character device name is rejected with the
length error. -/
theorem validate_deviceName_length_witness :
    jsTruthy tokEx = true ∧ dLong.deviceName.length > 23 ∧
    validateBeforeSend tokEx dLong = some "Device name must be ≤ 23 characters." :=
  ⟨by decide, by decide,
   (validate_deviceName_length tokEx dLong).2.1 (by decide) (by decide)⟩

/-- C9: starting from the ready stage, a validation error stops
`sendPrint` before any network call — the error is toasted and no
request goes out — and after every submission, on success and on every
failure alike, the stage is back at ready (never left at sending), in
both revisions. -/
theorem sendPrint_flow_states (st : UiState) (d : Draft) (net : FetchOutcome)
    (h : st.stage = Stage.ready) :
    (∀ e, validateBeforeSend st.token d = some e →
      sendPrint000 st d net = ({ st with toast := some ⟨.error, e⟩ }, none) ∧
      sendPrint001 st d net = ({ st with toast := some ⟨.error, e⟩ }, none)) ∧
    (sendPrint000 st d net).1.stage = Stage.ready ∧
    (sendPrint001 st d net).1.stage = Stage.ready := by
  refine ⟨?_, ?_, ?_⟩
  · intro e he
    constructor
    · simp [sendPrint000, he]
    · simp [sendPrint001, he]
  · cases hv : validateBeforeSend st.token d with
    | some e => simp [sendPrint000, hv, h]
    | none =>
      cases net with
      | thrown m => simp [sendPrint000, hv]
      | responded resp =>
        cases hr : hsFetch000 resp with
        | ok out => simp [sendPrint000, hv, hr]
        | err m => simp [sendPrint000, hv, hr]
  · cases hv : validateBeforeSend st.token d with
    | some e => simp [sendPrint001, hv, h]
    | none =>
      cases net with
      | thrown m => simp [sendPrint001, hv]
      | responded resp =>
        cases hr : hsFetch001 (BASE001 ++ "/api/createPrintjob") resp with
        | ok out => simp [sendPrint001, hv, hr]
        | err m => simp [sendPrint001, hv, hr]

/-- stReady is a logged-in card state at the ready stage. -/
def stReady : UiState := { stage := .ready, toast := none, token := tokEx }

/-- Witness for C9: an out-of-bounds draft is stopped with the copies
error and no request is sent. -/
theorem sendPrint_flow_states_witness :
    stReady.stage = Stage.ready ∧
    validateBeforeSend stReady.token dCopies0 = some "Copies must be between 1 and 100." ∧
    sendPrint001 stReady dCopies0 (FetchOutcome.thrown "NetworkError2") =
      ({ stReady with toast := some ⟨ToastType.error, "Copies must be between 1 and 100."⟩ },
       none) :=
  ⟨rfl, by decide,
   ((sendPrint_flow_states stReady dCopies0 (FetchOutcome.thrown "NetworkError2") rfl).1
      "Copies must be between 1 and 100." (by decide)).2⟩
